import Mathlib

/-!
Shallow embedding of the V2Mackie control-surface codec (src/V2Mackie.cpp,
src/V2Mackie.h) together with proofs about the claims of the specification.

Conventions of the embedding:
* C `uint8_t` / `uint32_t` values are `Nat`; where C overflow or wraparound
  matters it is made explicit with `% 2^32` (see `sub32`).
* C `float` arithmetic on the fader/meter fractions is modelled with exact
  rationals (`ℚ`); the places where this matters are documented at the
  definitions concerned.
* The virtual `handle...` callbacks are modelled as an `Event` list returned
  by each dispatch function, in invocation order.
* The `V2MIDI::Packet` transport type (an external collaborator of this
  repository) is modelled as a small inductive of the five message shapes
  the codec uses.
-/

namespace V2Mackie

/-- VPotMode from V2Mackie.h. -/
inductive VPotMode
  | Off
  | Pan
  | Bar
  deriving DecidableEq

/-- StripButton from V2Mackie.h. -/
inductive StripButton
  | Arm
  | Mute
  | Select
  | Solo
  | Touch
  | VPot
  deriving DecidableEq

/-- TransportButton from V2Mackie.h. -/
inductive TransportButton
  | Rewind
  | Forward
  | Stop
  | Play
  | Record
  deriving DecidableEq

/-- BankButton from V2Mackie.h. -/
inductive BankButton
  | Previous
  | Next
  | PreviousChannel
  | NextChannel
  | Flip
  | Edit
  deriving DecidableEq

/-- ModifierButton from V2Mackie.h. -/
inductive ModifierButton
  | Shift
  | Option
  | Control
  | Alt
  deriving DecidableEq

/-- NavigationButton from V2Mackie.h. -/
inductive NavigationButton
  | Up
  | Down
  | Left
  | Right
  | Zoom
  | Scrub
  deriving DecidableEq

/-- Time::Type from V2Mackie.h. -/
inductive TimeType
  | SMPTE
  | Beats
  deriving DecidableEq

/-- V2MIDI::Packet, modelled as the five message shapes the codec uses.
`setNoteOff` in the V2MIDI library produces a note-off for a channel and a
note; the model keeps exactly those two fields. -/
inductive Packet
  | noteOn (channel note velocity : Nat)
  | noteOff (channel note : Nat)
  | controlChange (channel controller value : Nat)
  | aftertouchChannel (channel pressure : Nat)
  | pitchBend (channel : Nat) (value : Int)
  deriving DecidableEq

/-- The semantic callbacks (`handle...` virtuals of V2Mackie.h), as events.
The `pressed` fields carry the `on` argument of the corresponding callback. -/
inductive Event
  | stripButton (strip : Nat) (button : StripButton) (pressed : Bool)
  | stripVPotRaw (strip : Nat) (value : Nat)
  | stripVPot (strip : Nat) (mode : VPotMode) (center : Bool) (fraction : ℚ)
  | stripFader (strip : Nat) (fraction : ℚ)
  | stripMeter (strip : Nat) (fraction : ℚ) (overload : Bool)
  | stripMeterOverloadEv (strip : Nat) (overload : Bool)
  | stripDisplay (global : Bool) (strip : Nat) (row : Nat)
  | fader (fraction : ℚ)
  | transportButton (b : TransportButton) (pressed : Bool)
  | bankButton (b : BankButton) (pressed : Bool)
  | modifierButton (b : ModifierButton) (pressed : Bool)
  | navigationButton (b : NavigationButton) (pressed : Bool)
  | timeEv (type : TimeType)
  | timeout
  deriving DecidableEq

/-- Per-strip vpot state (`_strips[i].vpot`). -/
structure VPotState where
  mode : VPotMode
  center : Bool
  value : ℚ
  click : Bool

/-- Per-strip fader state (`_strips[i].fader`). -/
structure FaderState where
  position : ℚ
  touch : Bool

/-- Per-strip button latches (`_strips[i].button`). -/
structure ButtonState where
  arm : Bool
  mute : Bool
  select : Bool
  solo : Bool

/-- Per-strip meter state (`_strips[i].meter`). -/
structure MeterState where
  fraction : ℚ
  overload : Bool
  usec : Nat

/-- One channel strip (`_strips[i]`): the 2x7 display cache plus vpot, fader,
buttons and meter. `display row col` is the cached byte of the given row and
column. -/
structure StripState where
  display : Nat → Nat → Nat
  vpot : VPotState
  fader : FaderState
  button : ButtonState
  meter : MeterState

/-- Bank latches (`_bank`). -/
structure BankState where
  flip : Bool
  edit : Bool

/-- Transport latches (`_transport`). -/
structure TransportState where
  rewind : Bool
  forward : Bool
  stop : Bool
  play : Bool
  record : Bool

/-- Navigation latches (`_navigation`). -/
structure NavigationState where
  zoom : Bool
  scrub : Bool

/-- The whole codec state of one V2Mackie instance. `displayStrip` is the
flat 112-byte display buffer `_display.strip` (a total function; only
indices 0..111 are meaningful), `timeDigits` is `_display.time.digits`
(indices 0..9), `activeUsec` is `_active_usec` (0 means no heartbeat). -/
structure MackieState where
  activeUsec : Nat
  displayStrip : Nat → Nat
  timeType : TimeType
  timeDigits : Nat → Nat
  strips : Nat → StripState
  mainFader : ℚ
  bank : BankState
  transport : TransportState
  navigation : NavigationState

/-- A zeroed channel strip, as produced by `memset(_strips, 0, ...)` in
`reset()`: all bytes zero, so the display cache bytes are 0 (not spaces),
the vpot mode is the first enumerator `Off`, and every flag is false. -/
def defaultStrip : StripState where
  display := fun _ _ => 0
  vpot := ⟨.Off, false, 0, false⟩
  fader := ⟨0, false⟩
  button := ⟨false, false, false, false⟩
  meter := ⟨0, false, 0⟩

/-- State after `reset()`: everything cleared, display buffer filled with
spaces (byte 32). -/
def resetState : MackieState where
  activeUsec := 0
  displayStrip := fun _ => 32
  timeType := .SMPTE
  timeDigits := fun _ => 0
  strips := fun _ => defaultStrip
  mainFader := 0
  bank := ⟨false, false⟩
  transport := ⟨false, false, false, false, false⟩
  navigation := ⟨false, false⟩

/-- Update the state of one strip, leaving the other strips untouched. -/
def updStrip (s : MackieState) (i : Nat) (f : StripState → StripState) : MackieState :=
  {s with strips := fun j => if j = i then f (s.strips j) else s.strips j}

/-- Reading back the updated strip. -/
theorem updStrip_same (s : MackieState) (i : Nat) (f : StripState → StripState) :
    (updStrip s i f).strips i = f (s.strips i) := by
  simp [updStrip]

/-- Reading any other strip. -/
theorem updStrip_other (s : MackieState) (i j : Nat) (f : StripState → StripState)
    (h : j ≠ i) : (updStrip s i f).strips j = s.strips j := by
  simp [updStrip, h]

/-- Wraparound-safe `uint32_t` subtraction `a - b`, as used by the source for
timer comparisons and for the SysEx length computation. -/
def sub32 (a b : Nat) : Nat :=
  (a + (4294967296 - b % 4294967296)) % 4294967296

/-- Packing fact used throughout: for a low nibble `y < 16`,
`strip <<< 4 ||| y` is plain arithmetic `16 * strip + y`. -/
theorem shiftOr_eq (strip y : Nat) (hy : y < 16) :
    strip <<< 4 ||| y = 16 * strip + y := by
  rw [Nat.shiftLeft_eq, Nat.mul_comm]
  exact (Nat.mul_add_lt_is_or (i := 4) (by norm_num at hy ⊢; omega) strip).symm

/- ===================== Encoders ===================== -/

/-- V2Mackie::setStripMeter: `value = fraction * 12` truncated (C float to
integer conversion truncates toward zero; modelled with `Int.floor`, which
agrees on the non-negative domain), packed as `strip << 4 | value`. -/
def setStripMeter (strip : Nat) (fraction : ℚ) : Packet :=
  .aftertouchChannel 0 (strip <<< 4 ||| (⌊fraction * 12⌋).toNat)

/-- V2Mackie::setStripMeterOverload, exactly as the source parses in C:
`strip << 4 | overload ? 14 : 15` is `((strip << 4) | overload) ? 14 : 15`
(the conditional operator binds after the bitwise or), so the whole value
byte is the conditional's result. -/
def setStripMeterOverload (strip : Nat) (overload : Bool) : Packet :=
  .aftertouchChannel 0
    (if (strip <<< 4 ||| (if overload then 1 else 0)) ≠ 0 then 14 else 15)

/-- V2Mackie::setStripFader's pitch-bend value: `range = 16368 * fraction`
(C float multiply, then truncating conversion to `int16_t`; modelled as exact
rational multiplication and `Int.floor`, which agrees with the truncation on
the non-negative domain), `value = range - 8192`. -/
def setStripFaderValue (fraction : ℚ) : Int :=
  ⌊(8176 + 8192 : ℚ) * fraction⌋ - 8192

/-- V2Mackie::setStripFader: the pitch-bend packet on the strip's channel. -/
def setStripFader (strip : Nat) (fraction : ℚ) : Packet :=
  .pitchBend strip (setStripFaderValue fraction)

/-- V2Mackie::setStripText, which writes `F0, vendor(00 00 66), device(20),
type Display(18), offset 56*row + 7*strip, the text bytes, space padding,
F7` into the caller's buffer. The source computes the padding size as
`7 - strlen(text)`; when the text is longer than 7 characters that size
underflows (int -1 becomes a huge `size_t`) and `memset` overruns the
buffer, so no valid frame is produced: that case is modelled as `none`. -/
def setStripText (strip row : Nat) (text : List Nat) : Option (List Nat) :=
  if text.length ≤ 7 then
    some ([240, 0, 0, 102, 20, 18, 56 * row + 7 * strip]
      ++ text ++ List.replicate (7 - text.length) 32 ++ [247])
  else none

/- ===================== C1 ===================== -/

/-- C1 counterexample: at strip 1 with overload set to false the emitted
channel-pressure byte is 14, not a byte with level value 15 (the claim's
expected message for these arguments would carry `1 <<< 4 ||| 15 = 31`). -/
theorem setStripMeterOverload_c1_counterexample :
    setStripMeterOverload 1 false = .aftertouchChannel 0 14 ∧
    setStripMeterOverload 1 false ≠ .aftertouchChannel 0 (1 <<< 4 ||| 15) := by
  constructor
  · rfl
  · decide

/-- C1 (amended): for every strip and overload flag, setStripMeterOverload
emits a channel-pressure message whose whole value byte is 15 when
`strip = 0` and `overload = false`, and 14 otherwise; the strip nibble is
never encoded, because the conditional operator binds after the bitwise or. -/
theorem setStripMeterOverload_c1_amended (strip : Nat) (overload : Bool) :
    setStripMeterOverload strip overload =
      .aftertouchChannel 0 (if strip = 0 ∧ overload = false then 15 else 14) := by
  unfold setStripMeterOverload
  have h : strip <<< 4 ||| (if overload then 1 else 0) =
      16 * strip + (if overload then 1 else 0) :=
    shiftOr_eq _ _ (by cases overload <;> simp)
  rw [h]
  congr 1
  rcases overload with _ | _ <;> split_ifs <;> simp_all

/- ===================== C7 ===================== -/

/-- C7 counterexample: with an 8-character input text the source does not
truncate; the padding size `7 - strlen(text)` underflows and the memset
overruns the buffer, so no frame whose text payload is exactly 7 characters
is produced (modelled as `none`). -/
theorem setStripText_c7_counterexample :
    setStripText 0 0 (List.replicate 8 65) = none := by
  decide

/-- C7 (amended): for every strip, row and input text of length at most 7,
setStripText produces a bulk display frame framed with the vendor prefix
(00 00 66), unit id 20 and display type byte 18, addressed at
`row * 56 + strip * 7`, whose text payload is exactly the input padded with
spaces to 7 characters; texts longer than 7 characters are not truncated
(the padding size underflows and the buffer is overrun instead). -/
theorem setStripText_c7_amended (strip row : Nat) (text : List Nat)
    (h : text.length ≤ 7) :
    setStripText strip row text =
      some ([240, 0, 0, 102, 20, 18, 56 * row + 7 * strip]
        ++ (text ++ List.replicate (7 - text.length) 32) ++ [247]) ∧
    (text ++ List.replicate (7 - text.length) 32).length = 7 := by
  constructor
  · simp [setStripText, h]
  · rw [List.length_append, List.length_replicate]
    omega

/-- C7 witness: the amended theorem applied to strip 2, row 1, text "AB". -/
theorem setStripText_c7_witness :
    ([65, 66] : List Nat).length ≤ 7 ∧
    (setStripText 2 1 [65, 66] =
      some ([240, 0, 0, 102, 20, 18, 56 * 1 + 7 * 2]
        ++ ([65, 66] ++ List.replicate (7 - ([65, 66] : List Nat).length) 32) ++ [247]) ∧
    (([65, 66] : List Nat) ++ List.replicate (7 - ([65, 66] : List Nat).length) 32).length = 7) :=
  ⟨by decide, setStripText_c7_amended 2 1 [65, 66] (by decide)⟩

/- ===================== Pitch-bend decode and C5 ===================== -/

/-- Clamp of the incoming pitch-bend value (dispatchPitchBend). -/
def clampPB (value : Int) : Int :=
  if value > 8176 then 8176
  else if value < -8192 then -8192
  else value

/-- V2Mackie::dispatchPitchBend: clamp to [-8192, 8176], shift by 8192,
normalize by `8176 + 8192` (the C float division is modelled as exact
rational division); channels 0-7 update the strip fader, channel 8 the
main fader, other channels are ignored. -/
def dispatchPitchBend (s : MackieState) (channel : Nat) (value : Int) :
    MackieState × List Event :=
  let v := clampPB value + 8192
  let fraction : ℚ := (v : ℚ) / (8176 + 8192)
  if channel ≤ 7 then
    (updStrip s channel fun st => {st with fader := {st.fader with position := fraction}},
     [.stripFader channel fraction])
  else if channel = 8 then
    ({s with mainFader := fraction}, [.fader fraction])
  else
    (s, [])

/-- C5 counterexample: at fraction 1/16383 the encode/decode round trip
yields 0, which differs from 1/16383 by more than the claimed bound
1/16384 (the true quantization step of the encoding is 1/16368). -/
theorem faderRoundTrip_c5_counterexample :
    |((dispatchPitchBend resetState 0 (setStripFaderValue (1/16383))).1.strips 0).fader.position
      - 1/16383| > 1/16384 := by
  have hval : setStripFaderValue (1/16383 : ℚ) = -8192 := by
    have he : ((8176 + 8192 : ℚ) * (1/16383)) = 16368/16383 := by norm_num
    rw [setStripFaderValue, he]
    have h0 : ⌊(16368/16383 : ℚ)⌋ = 0 := by
      rw [Int.floor_eq_zero_iff]
      constructor <;> norm_num
    rw [h0]
    ring
  rw [hval]
  norm_num [dispatchPitchBend, clampPB, updStrip, resetState, defaultStrip]
  rw [abs_of_pos (by norm_num : (0 : ℚ) < 1/16383)]
  norm_num

/-- C5 (amended): for every strip in [0,7] and fraction in [0,1], encoding
the fader position with setStripFader and decoding the resulting pitch-bend
value with dispatchPitchBend yields a fader position differing from the
original fraction by less than one quantization step, 1/16368 (not 1/16384
as claimed: the encoder's range is 8176 + 8192 = 16368). -/
theorem faderRoundTrip_c5_amended (s : MackieState) (strip : Nat) (q : ℚ)
    (hs : strip ≤ 7) (h0 : 0 ≤ q) (h1 : q ≤ 1) :
    |((dispatchPitchBend s strip (setStripFaderValue q)).1.strips strip).fader.position - q|
      < 1 / 16368 := by
  have hq : (8176 + 8192 : ℚ) * q = 16368 * q := by ring
  have hle : ((⌊(16368 : ℚ) * q⌋ : ℚ)) ≤ 16368 * q := Int.floor_le _
  have hgt : (16368 : ℚ) * q - 1 < (⌊(16368 : ℚ) * q⌋ : ℚ) := Int.sub_one_lt_floor _
  have hub : (⌊(16368 : ℚ) * q⌋ : Int) ≤ 16368 := by
    have : (16368 : ℚ) * q ≤ 16368 := by nlinarith
    have h2 : ((⌊(16368 : ℚ) * q⌋ : Int) : ℚ) ≤ (16368 : ℚ) := le_trans hle this
    exact_mod_cast h2
  have hlb : (0 : Int) ≤ ⌊(16368 : ℚ) * q⌋ := by
    have : (0 : ℚ) ≤ 16368 * q := by nlinarith
    exact Int.floor_nonneg.mpr this
  have hclamp : clampPB (setStripFaderValue q) = ⌊(16368 : ℚ) * q⌋ - 8192 := by
    rw [setStripFaderValue, hq, clampPB, if_neg (by omega), if_neg (by omega)]
  simp only [dispatchPitchBend, if_pos hs, updStrip_same, hclamp]
  have hv : ((⌊(16368 : ℚ) * q⌋ - 8192 + 8192 : Int) : ℚ) = ((⌊(16368 : ℚ) * q⌋ : Int) : ℚ) := by
    push_cast
    ring
  rw [hv]
  rw [abs_sub_lt_iff]
  constructor
  · have : ((⌊(16368 : ℚ) * q⌋ : Int) : ℚ) / (8176 + 8192) ≤ q := by
      rw [div_le_iff₀ (by norm_num)]
      nlinarith
    linarith
  · have : q - 1 / 16368 < ((⌊(16368 : ℚ) * q⌋ : Int) : ℚ) / (8176 + 8192) := by
      rw [lt_div_iff₀ (by norm_num)]
      nlinarith
    linarith

/-- C5 witness: the amended theorem applied at strip 3, fraction 1/2. -/
theorem faderRoundTrip_c5_witness :
    (3 : Nat) ≤ 7 ∧ (0 : ℚ) ≤ 1/2 ∧ (1/2 : ℚ) ≤ 1 ∧
    |((dispatchPitchBend resetState 3 (setStripFaderValue (1/2))).1.strips 3).fader.position
      - 1/2| < 1 / 16368 :=
  ⟨by norm_num, by norm_num, by norm_num,
    faderRoundTrip_c5_amended resetState 3 (1/2) (by norm_num) (by norm_num) (by norm_num)⟩

/- ===================== setStripIndex and C6 ===================== -/

/-- The per-strip note remap shared by the NoteOn and NoteOff arms of
V2Mackie::setStripIndex: vpot push 32-39, arm 0-7, solo 8-15, mute 16-23,
select 24-31, fader touch 104-111, each rewritten to the slot of `strip`;
any other note yields no match. -/
def remapNote (note strip : Nat) : Option Nat :=
  if 32 ≤ note ∧ note ≤ 39 then some (32 + strip)
  else if note ≤ 7 then some (0 + strip)
  else if 8 ≤ note ∧ note ≤ 15 then some (8 + strip)
  else if 16 ≤ note ∧ note ≤ 23 then some (16 + strip)
  else if 24 ≤ note ∧ note ≤ 31 then some (24 + strip)
  else if 104 ≤ note ∧ note ≤ 111 then some (104 + strip)
  else none

/-- V2Mackie::setStripIndex: rewrite the strip address of an already-built
packet to `strip`. Notes and controllers require channel 0; the rotary LED
controller range is 48-55; a meter channel-pressure message requires strip
nibble 0-7 and gets `strip <<< 4 ||| value`; pitch bend on channels 0-7 is
retargeted to channel `strip`. Everything else returns no match (NULL). -/
def setStripIndex (p : Packet) (strip : Nat) : Option Packet :=
  match p with
  | .noteOn channel note velocity =>
    if channel ≠ 0 then none
    else (remapNote note strip).map fun n => .noteOn 0 n velocity
  | .noteOff channel note =>
    if channel ≠ 0 then none
    else (remapNote note strip).map fun n => .noteOff 0 n
  | .controlChange channel controller value =>
    if channel ≠ 0 then none
    else if 48 ≤ controller ∧ controller ≤ 55 then
      some (.controlChange 0 (48 + strip) value)
    else none
  | .aftertouchChannel channel pressure =>
    if channel ≠ 0 then none
    else if pressure >>> 4 > 7 then none
    else some (.aftertouchChannel 0 (strip <<< 4 ||| (pressure &&& 15)))
  | .pitchBend channel value =>
    if channel ≤ 7 then some (.pitchBend strip value) else none

/-- Low nibble extraction is mod 16. -/
theorem and15_eq_mod (x : Nat) : x &&& 15 = x % 16 := by
  have h := Nat.and_pow_two_sub_one_eq_mod x 4
  norm_num at h
  exact h

/-- High nibble extraction is division by 16. -/
theorem shiftRight4_eq_div (x : Nat) : x >>> 4 = x / 16 := by
  rw [Nat.shiftRight_eq_div_pow]

/-- The note remap fixes its own output slots. -/
theorem remapNote_idem {note strip n : Nat} (hs : strip ≤ 7)
    (h : remapNote note strip = some n) : remapNote n strip = some n := by
  unfold remapNote at h
  split_ifs at h with h1 h2 h3 h4 h5 h6
  · injection h with h; subst h; unfold remapNote
    rw [if_pos (by omega)]
  · injection h with h; subst h; unfold remapNote
    rw [if_neg (by omega), if_pos (by omega)]
  · injection h with h; subst h; unfold remapNote
    rw [if_neg (by omega), if_neg (by omega), if_pos (by omega)]
  · injection h with h; subst h; unfold remapNote
    rw [if_neg (by omega), if_neg (by omega), if_neg (by omega), if_pos (by omega)]
  · injection h with h; subst h; unfold remapNote
    rw [if_neg (by omega), if_neg (by omega), if_neg (by omega), if_neg (by omega),
      if_pos (by omega)]
  · injection h with h; subst h; unfold remapNote
    rw [if_neg (by omega), if_neg (by omega), if_neg (by omega), if_neg (by omega),
      if_neg (by omega), if_pos (by omega)]

/-- The note remap is injective in the target strip. -/
theorem remapNote_inj {note s₁ s₂ n : Nat}
    (h₁ : remapNote note s₁ = some n) (h₂ : remapNote note s₂ = some n) :
    s₁ = s₂ := by
  unfold remapNote at h₁ h₂
  split_ifs at h₁ h₂ <;>
    first
      | exact Option.noConfusion h₁
      | (injection h₁ with h₁; injection h₂ with h₂; omega)

/-- Whether the note remap matches does not depend on the target strip. -/
theorem remapNote_isSome (note s₁ s₂ : Nat) :
    (remapNote note s₁).isSome = (remapNote note s₂).isSome := by
  unfold remapNote
  split_ifs <;> rfl

/-- C6: setStripIndex is idempotent and acts as a bijection over the 8 strip
slots for every supported message shape (per-strip note ranges on channel 0
for note-on and note-off, the rotary-LED controller range on channel 0,
pitch-bend channels 0-7, meter channel-pressure with strip nibble 0-7), and
returns null for every unsupported shape, including a transport-button note
(note 91 is Transport::Rewind), any channel-voice message on a non-zero
channel, and pitch bend outside channels 0-7. -/
theorem setStripIndex_c6 :
    (∀ p strip q, strip ≤ 7 → setStripIndex p strip = some q →
        setStripIndex q strip = some q) ∧
    (∀ p s₁ s₂ q, s₁ ≤ 7 → s₂ ≤ 7 → setStripIndex p s₁ = some q →
        setStripIndex p s₂ = some q → s₁ = s₂) ∧
    (∀ p s₁ s₂, s₁ ≤ 7 → s₂ ≤ 7 →
        ((setStripIndex p s₁).isSome ↔ (setStripIndex p s₂).isSome)) ∧
    (∀ strip velocity, setStripIndex (.noteOn 0 91 velocity) strip = none) ∧
    (∀ channel strip a b, channel ≠ 0 →
        setStripIndex (.noteOn channel a b) strip = none ∧
        setStripIndex (.noteOff channel a) strip = none ∧
        setStripIndex (.controlChange channel a b) strip = none ∧
        setStripIndex (.aftertouchChannel channel a) strip = none) ∧
    (∀ channel strip value, 7 < channel →
        setStripIndex (.pitchBend channel value) strip = none) := by
  refine ⟨?_, ?_, ?_, ?_, ?_, ?_⟩
  · intro p strip q hs h
    cases p with
    | noteOn channel note velocity =>
      rw [setStripIndex] at h
      split_ifs at h with hch
      obtain ⟨n, hn, rfl⟩ := Option.map_eq_some'.mp h
      simp [setStripIndex, remapNote_idem hs hn]
    | noteOff channel note =>
      rw [setStripIndex] at h
      split_ifs at h with hch
      obtain ⟨n, hn, rfl⟩ := Option.map_eq_some'.mp h
      simp [setStripIndex, remapNote_idem hs hn]
    | controlChange channel controller value =>
      rw [setStripIndex] at h
      split_ifs at h with hch hc
      injection h with h
      subst h
      simp only [setStripIndex]
      rw [if_neg (by omega), if_pos (by omega)]
    | aftertouchChannel channel pressure =>
      rw [setStripIndex] at h
      split_ifs at h with hch hp
      injection h with h
      subst h
      have hlow : pressure &&& 15 < 16 := by
        have := Nat.and_le_right (n := pressure) (m := 15)
        omega
      have hpk := shiftOr_eq strip (pressure &&& 15) hlow
      simp only [setStripIndex, hpk]
      rw [if_neg (by omega), if_neg (by rw [shiftRight4_eq_div]; omega)]
      have h15 : (16 * strip + (pressure &&& 15)) &&& 15 = pressure &&& 15 := by
        rw [and15_eq_mod]
        omega
      rw [h15, hpk]
    | pitchBend channel value =>
      rw [setStripIndex] at h
      split_ifs at h with hch
      injection h with h
      subst h
      simp only [setStripIndex]
      rw [if_pos hs]
  · intro p s₁ s₂ q h₁ h₂ ha hb
    cases p with
    | noteOn channel note velocity =>
      rw [setStripIndex] at ha hb
      split_ifs at ha hb with hch
      obtain ⟨n₁, hn₁, he₁⟩ := Option.map_eq_some'.mp ha
      obtain ⟨n₂, hn₂, he₂⟩ := Option.map_eq_some'.mp hb
      rw [← he₂] at he₁
      injection he₁ with _ hn
      subst hn
      exact remapNote_inj hn₁ hn₂
    | noteOff channel note =>
      rw [setStripIndex] at ha hb
      split_ifs at ha hb with hch
      obtain ⟨n₁, hn₁, he₁⟩ := Option.map_eq_some'.mp ha
      obtain ⟨n₂, hn₂, he₂⟩ := Option.map_eq_some'.mp hb
      rw [← he₂] at he₁
      injection he₁ with _ hn
      subst hn
      exact remapNote_inj hn₁ hn₂
    | controlChange channel controller value =>
      rw [setStripIndex] at ha hb
      split_ifs at ha hb with hch hc
      rw [← hb] at ha
      injection ha with ha
      injection ha with _ hc2 _
      omega
    | aftertouchChannel channel pressure =>
      rw [setStripIndex] at ha hb
      split_ifs at ha hb with hch hp
      rw [← hb] at ha
      injection ha with ha
      injection ha with _ hval
      have hlow : pressure &&& 15 < 16 := by
        have := Nat.and_le_right (n := pressure) (m := 15)
        omega
      rw [shiftOr_eq s₁ _ hlow, shiftOr_eq s₂ _ hlow] at hval
      omega
    | pitchBend channel value =>
      rw [setStripIndex] at ha hb
      split_ifs at ha hb with hch
      rw [← hb] at ha
      simpa using ha
  · intro p s₁ s₂ h₁ h₂
    cases p with
    | noteOn channel note velocity =>
      simp only [setStripIndex]
      split_ifs
      · rfl
      · have hsome := remapNote_isSome note s₁ s₂
        cases hr1 : remapNote note s₁ <;> cases hr2 : remapNote note s₂ <;> simp_all
    | noteOff channel note =>
      simp only [setStripIndex]
      split_ifs
      · rfl
      · have hsome := remapNote_isSome note s₁ s₂
        cases hr1 : remapNote note s₁ <;> cases hr2 : remapNote note s₂ <;> simp_all
    | controlChange channel controller value =>
      simp only [setStripIndex]
      split_ifs <;> rfl
    | aftertouchChannel channel pressure =>
      simp only [setStripIndex]
      split_ifs <;> rfl
    | pitchBend channel value =>
      simp only [setStripIndex]
      split_ifs <;> rfl
  · intro strip velocity
    rfl
  · intro channel strip a b hch
    refine ⟨?_, ?_, ?_, ?_⟩ <;> simp [setStripIndex, hch]
  · intro channel strip value hch
    simp only [setStripIndex]
    rw [if_neg (by omega)]

/-- C6 witness: idempotence applied to the vpot-push note 33 retargeted to
strip 5 (slot note 37). -/
theorem setStripIndex_c6_witness :
    (5 : Nat) ≤ 7 ∧
    setStripIndex (.noteOn 0 33 99) 5 = some (.noteOn 0 37 99) ∧
    setStripIndex (.noteOn 0 37 99) 5 = some (.noteOn 0 37 99) :=
  ⟨by decide, by decide,
    setStripIndex_c6.1 (.noteOn 0 33 99) 5 (.noteOn 0 37 99) (by decide) (by decide)⟩

/- ===================== dispatchNote, loop: C2 and C9 ===================== -/

/-- V2Mackie::dispatchNote. Channel 0 carries all surface controls; the
per-strip ranges (vpot push 32-39, arm 0-7, solo 8-15, mute 16-23, select
24-31, fader touch 104-111) update the strip state; transport notes 91-95
update the transport latches; bank notes 46/47/48 only notify while 50/51
(flip/edit) also latch; modifier notes 70-73 and navigation notes 96-101
only notify. Channel 15 note 127 is the heartbeat ping recording `now`.
All other notes are ignored; `velocity == 127` means pressed. -/
def dispatchNote (s : MackieState) (now : Nat) (channel note velocity : Nat) :
    MackieState × List Event :=
  if channel = 0 then
    if 32 ≤ note ∧ note ≤ 39 then
      (updStrip s (note - 32) fun st => {st with vpot := {st.vpot with click := velocity == 127}},
       [.stripButton (note - 32) .VPot (velocity == 127)])
    else if note ≤ 7 then
      (updStrip s (note - 0) fun st => {st with button := {st.button with arm := velocity == 127}},
       [.stripButton (note - 0) .Arm (velocity == 127)])
    else if 8 ≤ note ∧ note ≤ 15 then
      (updStrip s (note - 8) fun st => {st with button := {st.button with solo := velocity == 127}},
       [.stripButton (note - 8) .Solo (velocity == 127)])
    else if 16 ≤ note ∧ note ≤ 23 then
      (updStrip s (note - 16) fun st => {st with button := {st.button with mute := velocity == 127}},
       [.stripButton (note - 16) .Mute (velocity == 127)])
    else if 24 ≤ note ∧ note ≤ 31 then
      (updStrip s (note - 24) fun st => {st with button := {st.button with select := velocity == 127}},
       [.stripButton (note - 24) .Select (velocity == 127)])
    else if 104 ≤ note ∧ note ≤ 111 then
      (updStrip s (note - 104) fun st => {st with fader := {st.fader with touch := velocity == 127}},
       [.stripButton (note - 104) .Touch (velocity == 127)])
    else if note = 91 then
      ({s with transport := {s.transport with rewind := velocity == 127}},
       [.transportButton .Rewind (velocity == 127)])
    else if note = 92 then
      ({s with transport := {s.transport with forward := velocity == 127}},
       [.transportButton .Forward (velocity == 127)])
    else if note = 93 then
      ({s with transport := {s.transport with stop := velocity == 127}},
       [.transportButton .Stop (velocity == 127)])
    else if note = 94 then
      ({s with transport := {s.transport with play := velocity == 127}},
       [.transportButton .Play (velocity == 127)])
    else if note = 95 then
      ({s with transport := {s.transport with record := velocity == 127}},
       [.transportButton .Record (velocity == 127)])
    else if note = 46 then (s, [.bankButton .Previous (velocity == 127)])
    else if note = 47 then (s, [.bankButton .Next (velocity == 127)])
    else if note = 48 then (s, [.bankButton .PreviousChannel (velocity == 127)])
    else if note = 50 then
      ({s with bank := {s.bank with flip := velocity == 127}},
       [.bankButton .Flip (velocity == 127)])
    else if note = 51 then
      ({s with bank := {s.bank with edit := velocity == 127}},
       [.bankButton .Edit (velocity == 127)])
    else if note = 70 then (s, [.modifierButton .Shift (velocity == 127)])
    else if note = 71 then (s, [.modifierButton .Option (velocity == 127)])
    else if note = 72 then (s, [.modifierButton .Control (velocity == 127)])
    else if note = 73 then (s, [.modifierButton .Alt (velocity == 127)])
    else if note = 96 then (s, [.navigationButton .Up (velocity == 127)])
    else if note = 97 then (s, [.navigationButton .Down (velocity == 127)])
    else if note = 98 then (s, [.navigationButton .Left (velocity == 127)])
    else if note = 99 then (s, [.navigationButton .Right (velocity == 127)])
    else if note = 100 then (s, [.navigationButton .Zoom (velocity == 127)])
    else if note = 101 then (s, [.navigationButton .Scrub (velocity == 127)])
    else (s, [])
  else if channel = 15 then
    if note = 127 then ({s with activeUsec := now}, [])
    else (s, [])
  else (s, [])

/-- One-strip meter decay step of V2Mackie::loop: skip if the fraction is
already non-positive or the last meter update is younger than one second,
otherwise clear the whole meter sub-state. The boolean reports whether the
strip decayed (and must emit a meter event). -/
def decayStrip (now : Nat) (st : StripState) : StripState × Bool :=
  if st.meter.fraction ≤ 0 then (st, false)
  else if sub32 now st.meter.usec < 1000000 then (st, false)
  else ({st with meter := ⟨0, false, 0⟩}, true)

/-- V2Mackie::loop: if a heartbeat is recorded (`_active_usec > 0`) and more
than 5000 * 1000 microseconds have elapsed, clear it and emit the timeout
event; then decay the meters of strips 0..7 in order. -/
def loop (s : MackieState) (now : Nat) : MackieState × List Event :=
  let lapsed := 0 < s.activeUsec ∧ 5000000 < sub32 now s.activeUsec
  ({s with
      activeUsec := if lapsed then 0 else s.activeUsec,
      strips := fun j => if j ≤ 7 then (decayStrip now (s.strips j)).1 else s.strips j},
    (if lapsed then [Event.timeout] else [])
      ++ (List.range 8).filterMap fun i =>
        if (decayStrip now (s.strips i)).2 then some (Event.stripMeter i 0 false) else none)

/-- Recognizer for the timeout event. -/
def isTimeout : Event → Bool
  | .timeout => true
  | _ => false

/-- Meter-decay events are never timeout events. -/
theorem decay_events_no_timeout (s : MackieState) (now : Nat) :
    (((List.range 8).filterMap fun i =>
        if (decayStrip now (s.strips i)).2 then some (Event.stripMeter i 0 false)
        else none).countP isTimeout) = 0 := by
  rw [List.countP_eq_zero]
  intro a ha
  rw [List.mem_filterMap] at ha
  obtain ⟨i, _, hi⟩ := ha
  split_ifs at hi
  injection hi with hi
  subst hi
  simp [isTimeout]

/-- C2 counterexample: the marker note 84 (Marker::PreviousFrame, enumerated
in the address map) is dispatched as a note-on on channel 0 and produces no
state change and no notification. -/
theorem dispatchNote_c2_counterexample :
    dispatchNote resetState 0 0 84 127 = (resetState, []) := rfl

set_option maxHeartbeats 2000000 in
/-- C2 (amended): on channel 0, transport note-ons 91-95 update the matching
transport latch and notify; bank notes 46-48 notify without a latch while
bank flip 50 and edit 51 latch and notify; modifier notes 70-73 and
navigation notes 96-101 notify without updating any latch; bank
NextChannel 49 and the marker/utility/automation notes 74-90 are ignored
entirely. -/
theorem dispatchNote_c2_amended (s : MackieState) (now velocity : Nat) :
    (dispatchNote s now 0 91 velocity =
      ({s with transport := {s.transport with rewind := velocity == 127}},
       [.transportButton .Rewind (velocity == 127)])) ∧
    (dispatchNote s now 0 92 velocity =
      ({s with transport := {s.transport with forward := velocity == 127}},
       [.transportButton .Forward (velocity == 127)])) ∧
    (dispatchNote s now 0 93 velocity =
      ({s with transport := {s.transport with stop := velocity == 127}},
       [.transportButton .Stop (velocity == 127)])) ∧
    (dispatchNote s now 0 94 velocity =
      ({s with transport := {s.transport with play := velocity == 127}},
       [.transportButton .Play (velocity == 127)])) ∧
    (dispatchNote s now 0 95 velocity =
      ({s with transport := {s.transport with record := velocity == 127}},
       [.transportButton .Record (velocity == 127)])) ∧
    (dispatchNote s now 0 46 velocity = (s, [.bankButton .Previous (velocity == 127)])) ∧
    (dispatchNote s now 0 47 velocity = (s, [.bankButton .Next (velocity == 127)])) ∧
    (dispatchNote s now 0 48 velocity = (s, [.bankButton .PreviousChannel (velocity == 127)])) ∧
    (dispatchNote s now 0 50 velocity =
      ({s with bank := {s.bank with flip := velocity == 127}},
       [.bankButton .Flip (velocity == 127)])) ∧
    (dispatchNote s now 0 51 velocity =
      ({s with bank := {s.bank with edit := velocity == 127}},
       [.bankButton .Edit (velocity == 127)])) ∧
    (dispatchNote s now 0 70 velocity = (s, [.modifierButton .Shift (velocity == 127)])) ∧
    (dispatchNote s now 0 71 velocity = (s, [.modifierButton .Option (velocity == 127)])) ∧
    (dispatchNote s now 0 72 velocity = (s, [.modifierButton .Control (velocity == 127)])) ∧
    (dispatchNote s now 0 73 velocity = (s, [.modifierButton .Alt (velocity == 127)])) ∧
    (dispatchNote s now 0 96 velocity = (s, [.navigationButton .Up (velocity == 127)])) ∧
    (dispatchNote s now 0 97 velocity = (s, [.navigationButton .Down (velocity == 127)])) ∧
    (dispatchNote s now 0 98 velocity = (s, [.navigationButton .Left (velocity == 127)])) ∧
    (dispatchNote s now 0 99 velocity = (s, [.navigationButton .Right (velocity == 127)])) ∧
    (dispatchNote s now 0 100 velocity = (s, [.navigationButton .Zoom (velocity == 127)])) ∧
    (dispatchNote s now 0 101 velocity = (s, [.navigationButton .Scrub (velocity == 127)])) ∧
    (∀ note, note = 49 ∨ (74 ≤ note ∧ note ≤ 90) →
      dispatchNote s now 0 note velocity = (s, [])) := by
  refine ⟨rfl, rfl, rfl, rfl, rfl, rfl, rfl, rfl, rfl, rfl, rfl, rfl, rfl, rfl, rfl,
    rfl, rfl, rfl, rfl, rfl, ?_⟩
  intro note h
  rcases h with rfl | ⟨h1, h2⟩
  · rfl
  · interval_cases note <;> rfl

/-- C2 witness: the amended theorem's ignored-note clause applied at the
utility note 80 (Utility::Cancel). -/
theorem dispatchNote_c2_witness :
    ((80 : Nat) = 49 ∨ (74 ≤ (80 : Nat) ∧ (80 : Nat) ≤ 90)) ∧
    dispatchNote resetState 5 0 80 127 = (resetState, []) :=
  ⟨by omega, (dispatchNote_c2_amended resetState 5 127).2.2.2.2.2.2.2.2.2.2.2.2.2.2.2.2.2.2.2.2
    80 (by omega)⟩

/-- C9: if a heartbeat is recorded (`_active_usec` nonzero) and more than 5
seconds have elapsed at the next tick, that tick clears the heartbeat state
and emits the timeout notification exactly once; any tick with the
heartbeat state absent emits no timeout, so it cannot re-fire until a new
heartbeat note (channel 15, ping note 127) records a fresh timestamp. -/
theorem loop_c9 :
    (∀ s now, 0 < s.activeUsec → 5000000 < sub32 now s.activeUsec →
      (loop s now).1.activeUsec = 0 ∧ ((loop s now).2.countP isTimeout) = 1) ∧
    (∀ s now, s.activeUsec = 0 → ((loop s now).2.countP isTimeout) = 0) ∧
    (∀ s now velocity, dispatchNote s now 15 127 velocity =
      ({s with activeUsec := now}, [])) := by
  refine ⟨?_, ?_, ?_⟩
  · intro s now h1 h2
    constructor
    · simp only [loop, if_pos (And.intro h1 h2)]
    · simp only [loop, if_pos (And.intro h1 h2), List.countP_append,
        decay_events_no_timeout]
      rfl
  · intro s now h
    have hneg : ¬(0 < s.activeUsec ∧ 5000000 < sub32 now s.activeUsec) := by
      rw [h]
      simp
    simp only [loop, if_neg hneg, List.countP_append, decay_events_no_timeout,
      List.countP_nil]
  · intro s now velocity
    rfl

/-- C9 witness: all three clauses at concrete inputs; the heartbeat was
recorded at microsecond 10 and the tick happens at microsecond 6000011. -/
theorem loop_c9_witness :
    (0 < ({resetState with activeUsec := 10} : MackieState).activeUsec ∧
      5000000 < sub32 6000011 ({resetState with activeUsec := 10} : MackieState).activeUsec ∧
      (loop {resetState with activeUsec := 10} 6000011).1.activeUsec = 0 ∧
      ((loop {resetState with activeUsec := 10} 6000011).2.countP isTimeout) = 1) ∧
    (resetState.activeUsec = 0 ∧ ((loop resetState 6000011).2.countP isTimeout) = 0) ∧
    dispatchNote resetState 42 15 127 90 = ({resetState with activeUsec := 42}, []) :=
  ⟨⟨by decide, by decide,
      (loop_c9.1 {resetState with activeUsec := 10} 6000011 (by decide) (by decide)).1,
      (loop_c9.1 {resetState with activeUsec := 10} 6000011 (by decide) (by decide)).2⟩,
    ⟨rfl, loop_c9.2.1 resetState 6000011 rfl⟩,
    loop_c9.2.2 resetState 42 90⟩

/- ============ dispatchControlChange (C8) and dispatchAftertouchChannel (C10) ============ -/

/-- Assignment of the three vpot fields (mode, center, value) performed by
every branch of the rotary-LED decode; the click flag is untouched. -/
def vpotSet (st : StripState) (mode : VPotMode) (center : Bool) (v : ℚ) : StripState :=
  {st with vpot := {st.vpot with mode := mode, center := center, value := v}}

/-- V2Mackie::dispatchControlChange (channel 0 only): controllers 64-73
write one time digit right-to-left and notify the time type; controllers
48-55 decode the rotary-LED feedback byte for strip `controller - 48`
(first the raw byte is notified, then bits 0-3 are the position -- 0 forces
mode Off --, bits 4-5 select the mode: Single 0 and Bar 2 show a bar
scaled /11, Boost 1 shows a pan split around position 6 scaled /5 per side,
Spread 3 shows a bar scaled /6 -- and bit 6 is the center dot); controllers
120 (all sound off) and 123 (all notes off, constants of the V2MIDI
library) reset the whole state. -/
def dispatchControlChange (s : MackieState) (channel controller value : Nat) :
    MackieState × List Event :=
  if channel ≠ 0 then (s, [])
  else if 64 ≤ controller ∧ controller ≤ 73 then
    ({s with timeDigits := fun i => if i = 64 + 9 - controller then value else s.timeDigits i},
     [.timeEv s.timeType])
  else if 48 ≤ controller ∧ controller ≤ 55 then
    if value &&& 15 = 0 then
      (updStrip s (controller - 48) fun st => vpotSet st .Off (value &&& 64 != 0) 0,
       [.stripVPotRaw (controller - 48) value,
        .stripVPot (controller - 48) .Off (value &&& 64 != 0) 0])
    else if (value >>> 4) &&& 3 = 0 then
      (updStrip s (controller - 48) fun st =>
        vpotSet st .Bar (value &&& 64 != 0) (((value &&& 15 : Nat) : ℚ) / 11),
       [.stripVPotRaw (controller - 48) value,
        .stripVPot (controller - 48) .Bar (value &&& 64 != 0) (((value &&& 15 : Nat) : ℚ) / 11)])
    else if (value >>> 4) &&& 3 = 1 then
      if value &&& 15 < 6 then
        (updStrip s (controller - 48) fun st =>
          vpotSet st .Pan (value &&& 64 != 0) (((6 - (value &&& 15) : Nat) : ℚ) / (-5)),
         [.stripVPotRaw (controller - 48) value,
          .stripVPot (controller - 48) .Pan (value &&& 64 != 0)
            (((6 - (value &&& 15) : Nat) : ℚ) / (-5))])
      else
        (updStrip s (controller - 48) fun st =>
          vpotSet st .Pan (value &&& 64 != 0) ((((value &&& 15) - 6 : Nat) : ℚ) / 5),
         [.stripVPotRaw (controller - 48) value,
          .stripVPot (controller - 48) .Pan (value &&& 64 != 0)
            ((((value &&& 15) - 6 : Nat) : ℚ) / 5)])
    else if (value >>> 4) &&& 3 = 2 then
      (updStrip s (controller - 48) fun st =>
        vpotSet st .Bar (value &&& 64 != 0) (((value &&& 15 : Nat) : ℚ) / 11),
       [.stripVPotRaw (controller - 48) value,
        .stripVPot (controller - 48) .Bar (value &&& 64 != 0) (((value &&& 15 : Nat) : ℚ) / 11)])
    else
      (updStrip s (controller - 48) fun st =>
        vpotSet st .Bar (value &&& 64 != 0) (((value &&& 15 : Nat) : ℚ) / 6),
       [.stripVPotRaw (controller - 48) value,
        .stripVPot (controller - 48) .Bar (value &&& 64 != 0) (((value &&& 15 : Nat) : ℚ) / 6)])
  else if controller = 120 ∨ controller = 123 then (resetState, [])
  else (s, [])

/-- C8: a rotary-LED controller change on channel 0 whose low nibble
(position) is 0 sets the strip vpot state to mode Off with value 0 (center
taken from bit 6, click untouched) and emits the raw notification followed
by a rotary-display notification with mode Off, regardless of the mode
bits 4-5 of the value byte. -/
theorem dispatchControlChange_c8 (s : MackieState) (strip value : Nat)
    (hs : strip ≤ 7) (hp : value &&& 15 = 0) :
    dispatchControlChange s 0 (48 + strip) value =
      (updStrip s strip fun st => vpotSet st .Off (value &&& 64 != 0) 0,
       [.stripVPotRaw strip value, .stripVPot strip .Off (value &&& 64 != 0) 0]) := by
  have h48 : 48 + strip - 48 = strip := by omega
  unfold dispatchControlChange
  rw [if_neg (by omega), if_neg (by omega), if_pos (by omega), if_pos hp, h48]

/-- C8 witness: strip 2, value byte 64 (center dot set, mode bits 0,
position 0). -/
theorem dispatchControlChange_c8_witness :
    (2 : Nat) ≤ 7 ∧ (64 : Nat) &&& 15 = 0 ∧
    dispatchControlChange resetState 0 (48 + 2) 64 =
      (updStrip resetState 2 fun st => vpotSet st .Off ((64 : Nat) &&& 64 != 0) 0,
       [.stripVPotRaw 2 64, .stripVPot 2 .Off ((64 : Nat) &&& 64 != 0) 0]) :=
  ⟨by decide, by decide, dispatchControlChange_c8 resetState 2 64 (by decide) (by decide)⟩

/-- V2Mackie::dispatchAftertouchChannel (channel 0 only): the high nibble of
the pressure byte selects the strip (rejected above 7), the low nibble is
the meter value: 0-12 set the fraction `value / 12`, 13 sets 1 (TotalMix
sends 13 for full scale), 14 sets the overload flag and 15 clears it (each
notifying only on an edge, without touching the fraction). Every accepted
message stamps the meter time with `now` and emits a meter notification
with the resulting fraction/overload pair. -/
def dispatchAftertouchChannel (s : MackieState) (now : Nat) (channel pressure : Nat) :
    MackieState × List Event :=
  if channel ≠ 0 then (s, [])
  else if pressure >>> 4 > 7 then (s, [])
  else
    let index := pressure >>> 4
    let value := pressure &&& 15
    let st := s.strips index
    let upd :=
      if value ≤ 12 then
        ({st with meter := {st.meter with fraction := (value : ℚ) / 12}}, ([] : List Event))
      else if value = 13 then
        ({st with meter := {st.meter with fraction := 1}}, [])
      else if value = 14 then
        ({st with meter := {st.meter with overload := true}},
         if st.meter.overload then [] else [.stripMeterOverloadEv index true])
      else
        ({st with meter := {st.meter with overload := false}},
         if st.meter.overload then [.stripMeterOverloadEv index false] else [])
    let st2 := {upd.1 with meter := {upd.1.meter with usec := now}}
    (updStrip s index fun _ => st2,
     upd.2 ++ [.stripMeter index st2.meter.fraction st2.meter.overload])

/-- C10: for every accepted meter channel-pressure message (channel 0,
strip nibble at most 7), a low nibble of 14 or 15 (overload set/clear)
leaves the strip meter fraction unchanged; a low nibble of 0-13 leaves the
strip overload flag unchanged; and in every case the entire state of every
other strip is unchanged. -/
theorem dispatchAftertouchChannel_c10 (s : MackieState) (now pressure : Nat)
    (hidx : pressure >>> 4 ≤ 7) :
    ((14 ≤ pressure &&& 15) →
      ((dispatchAftertouchChannel s now 0 pressure).1.strips (pressure >>> 4)).meter.fraction
        = (s.strips (pressure >>> 4)).meter.fraction) ∧
    ((pressure &&& 15 ≤ 13) →
      ((dispatchAftertouchChannel s now 0 pressure).1.strips (pressure >>> 4)).meter.overload
        = (s.strips (pressure >>> 4)).meter.overload) ∧
    (∀ j, j ≠ pressure >>> 4 →
      (dispatchAftertouchChannel s now 0 pressure).1.strips j = s.strips j) := by
  have hch : ¬((0 : Nat) ≠ 0) := by omega
  have hgt : ¬(pressure >>> 4 > 7) := by omega
  simp only [dispatchAftertouchChannel, if_neg hch, if_neg hgt]
  refine ⟨?_, ?_, ?_⟩
  · intro h14
    split_ifs with h12 h13 <;>
      first
        | exact absurd h14 (by omega)
        | simp [updStrip_same]
  · intro h13
    split_ifs with h12 hv13 <;>
      first
        | exact absurd h13 (by omega)
        | simp [updStrip_same]
  · intro j hj
    split_ifs <;> rw [updStrip_other _ _ _ _ hj]

/-- C10 witness: pressure byte 30 (strip 1, low nibble 14) against the reset
state: fraction of strip 1 unchanged, strip 0 untouched. -/
theorem dispatchAftertouchChannel_c10_witness :
    (30 : Nat) >>> 4 ≤ 7 ∧
    (14 ≤ (30 : Nat) &&& 15 ∧
      ((dispatchAftertouchChannel resetState 77 0 30).1.strips ((30 : Nat) >>> 4)).meter.fraction
        = (resetState.strips ((30 : Nat) >>> 4)).meter.fraction) ∧
    ((0 : Nat) ≠ (30 : Nat) >>> 4 ∧
      (dispatchAftertouchChannel resetState 77 0 30).1.strips 0 = resetState.strips 0) :=
  ⟨by decide, ⟨by decide, (dispatchAftertouchChannel_c10 resetState 77 30 (by decide)).1 (by decide)⟩,
    ⟨by decide, (dispatchAftertouchChannel_c10 resetState 77 30 (by decide)).2.2 0 (by decide)⟩⟩

/- ===================== dispatchSystemExclusive: C3 and C4 ===================== -/

/-- The memcpy of the display payload into the 112-byte buffer: bytes
`start .. start + src.length - 1` get the source bytes, everything else is
kept. -/
def writeBytes (d : Nat → Nat) (start : Nat) (src : List Nat) : Nat → Nat :=
  fun i => if start ≤ i ∧ i < start + src.length then src.getD (i - start) 0 else d i

/-- The 7 display-buffer bytes of one strip/row block
(`_display.strip + 56 * row + 7 * strip`). -/
def blockBytes (d : Nat → Nat) (strip row : Nat) : List Nat :=
  (List.range 7).map fun c => d (56 * row + 7 * strip + c)

/-- The 7 cached bytes of one strip/row (`_strips[strip].display[row]`). -/
def cacheBytes (st : StripState) (row : Nat) : List Nat :=
  (List.range 7).map fun c => st.display row c

/-- The cache update `memcpy(_strips[strip].display[row], _display.strip +
56 * row + 7 * strip, 7)`. -/
def setCacheBlock (st : StripState) (row : Nat) (d : Nat → Nat) (strip : Nat) : StripState :=
  {st with display := fun r c => if r = row then d (56 * row + 7 * strip + c) else st.display r c}

/-- The per-block loop of the display reassembler: for each 7-character
block index `blk`, strip is `blk % 8` and row `blk / 8`; if the buffer
content equals the cache, skip, else update the cache and notify with the
row's global flag. Events are produced in loop order. -/
def processBlocks (d : Nat → Nat) (g : Nat → Bool) :
    List Nat → (Nat → StripState) → ((Nat → StripState) × List Event)
  | [], strips => (strips, [])
  | blk :: rest, strips =>
    if blockBytes d (blk % 8) (blk / 8) = cacheBytes (strips (blk % 8)) (blk / 8) then
      processBlocks d g rest strips
    else
      let strips' := fun j =>
        if j = blk % 8 then setCacheBlock (strips (blk % 8)) (blk / 8) d (blk % 8)
        else strips j
      let res := processBlocks d g rest strips'
      (res.1, .stripDisplay (g (blk / 8)) (blk % 8) (blk / 8) :: res.2)

/-- The global-message heuristic: a row is global when any of its eight
strip-terminal characters (column 6 of each 7-character block; blocks 0-7
for row 0, 8-15 for row 1) is not a space. -/
def globalRow (d : Nat → Nat) (row : Nat) : Bool :=
  (List.range 8).any fun k => d ((k + 8 * row) * 7 + 6) != 32

/-- Recognizer for a display-changed event of a given strip and row (with
any global flag). -/
def isDisplayEventFor (strip row : Nat) : Event → Bool
  | .stripDisplay _ s r => s == strip && r == row
  | _ => false

/-- V2Mackie::dispatchSystemExclusive. The frame is the raw byte buffer
including the F0/F7 delimiters; `len` is its length. Checks in source
order: minimum length `1 + Header::Message + 1 + 1 = 8` (Header::Message
is 5); the 3-byte vendor prefix 00 00 66 at offset 1; the unit id 20 or 21
at offset 4; only the display type 18 at offset 5 is handled. The payload
length `l = len - 2 - Header::Message - 1 = len - 8` is uint32 arithmetic,
written with `sub32` as in the source (the length guard makes `len - 7` at
least 1, so the final decrement never underflows), the start offset is the
byte at offset 6, and the overflow check `start + l > 112` is also uint32
arithmetic. The second length check of the source
(`len < Display::Header::Text + 1`) is dead because len is at least 8,
and is kept as in the source. -/
def dispatchSystemExclusive (s : MackieState) (buf : List Nat) : MackieState × List Event :=
  if buf.length < 8 then (s, [])
  else if ¬(buf.getD 1 0 = 0 ∧ buf.getD 2 0 = 0 ∧ buf.getD 3 0 = 102) then (s, [])
  else if ¬(buf.getD 4 0 = 20 ∨ buf.getD 4 0 = 21) then (s, [])
  else if buf.getD 5 0 = 18 then
    if buf.length < 2 then (s, [])
    else
      let start := buf.getD 6 0
      let l := sub32 (buf.length - 7) 1
      if 112 < (start + l) % 4294967296 then (s, [])
      else
        let d := writeBytes s.displayStrip start ((buf.drop 7).take l)
        let first := start / 7
        let last := (start + l) / 7
        let blocks := (List.range (1 + (last - first))).map fun i => first + i
        let res := processBlocks d (globalRow d) blocks s.strips
        ({s with displayStrip := d, strips := res.1}, res.2)
  else (s, [])

/-- C4: every malformed system-exclusive frame - shorter than the minimum
header length 8, wrong 3-byte vendor prefix, unit-id byte neither 20 nor
21, or a display frame whose start-offset plus text length exceeds the
112-byte buffer (with the sum within the uint32 range in which the
source's overflow check operates) - leaves all codec state unchanged and
emits no notification. -/
theorem dispatchSystemExclusive_c4 (s : MackieState) (buf : List Nat)
    (h : buf.length < 8 ∨
      ¬(buf.getD 1 0 = 0 ∧ buf.getD 2 0 = 0 ∧ buf.getD 3 0 = 102) ∨
      ¬(buf.getD 4 0 = 20 ∨ buf.getD 4 0 = 21) ∨
      (8 ≤ buf.length ∧ buf.getD 5 0 = 18 ∧
        112 < buf.getD 6 0 + (buf.length - 8) ∧
        buf.getD 6 0 + (buf.length - 8) < 4294967296)) :
    dispatchSystemExclusive s buf = (s, []) := by
  simp only [dispatchSystemExclusive]
  by_cases h1 : buf.length < 8
  · rw [if_pos h1]
  · rw [if_neg h1]
    by_cases h2 : buf.getD 1 0 = 0 ∧ buf.getD 2 0 = 0 ∧ buf.getD 3 0 = 102
    · rw [if_neg (not_not_intro h2)]
      by_cases h3 : buf.getD 4 0 = 20 ∨ buf.getD 4 0 = 21
      · rw [if_neg (not_not_intro h3)]
        by_cases h4 : buf.getD 5 0 = 18
        · rw [if_pos h4, if_neg (show ¬buf.length < 2 by omega)]
          obtain ⟨hl8, hgt, hlt⟩ :
              8 ≤ buf.length ∧
                112 < buf.getD 6 0 + (buf.length - 8) ∧
                buf.getD 6 0 + (buf.length - 8) < 4294967296 := by
            rcases h with h | h | h | ⟨ha, _, hb, hc⟩
            · exact absurd h h1
            · exact absurd h2 h
            · exact absurd h3 h
            · exact ⟨ha, hb, hc⟩
          rw [if_pos (show 112 < (buf.getD 6 0 + sub32 (buf.length - 7) 1) % 4294967296 by
            unfold sub32
            omega)]
        · rw [if_neg h4]
      · rw [if_pos h3]
    · rw [if_pos h2]

/-- C4 witness: a frame that is too short. -/
theorem dispatchSystemExclusive_c4_witness :
    (([240, 0, 0] : List Nat).length < 8 ∨
      ¬(([240, 0, 0] : List Nat).getD 1 0 = 0 ∧ ([240, 0, 0] : List Nat).getD 2 0 = 0 ∧
        ([240, 0, 0] : List Nat).getD 3 0 = 102) ∨
      ¬(([240, 0, 0] : List Nat).getD 4 0 = 20 ∨ ([240, 0, 0] : List Nat).getD 4 0 = 21) ∨
      (8 ≤ ([240, 0, 0] : List Nat).length ∧ ([240, 0, 0] : List Nat).getD 5 0 = 18 ∧
        112 < ([240, 0, 0] : List Nat).getD 6 0 + (([240, 0, 0] : List Nat).length - 8) ∧
        ([240, 0, 0] : List Nat).getD 6 0 + (([240, 0, 0] : List Nat).length - 8) < 4294967296)) ∧
    dispatchSystemExclusive resetState [240, 0, 0] = (resetState, []) :=
  ⟨Or.inl (by decide),
    dispatchSystemExclusive_c4 resetState [240, 0, 0] (Or.inl (by decide))⟩

/-- Updating a cache block leaves the cached bytes of that strip's other row
unchanged. -/
theorem cacheBytes_setCacheBlock_ne (st : StripState) (row r : Nat) (d : Nat → Nat)
    (strip : Nat) (h : r ≠ row) :
    cacheBytes (setCacheBlock st row d strip) r = cacheBytes st r := by
  simp [cacheBytes, setCacheBlock, h]

/-- Updating a cache block makes the cached bytes equal the buffer block. -/
theorem cacheBytes_setCacheBlock_same (st : StripState) (row : Nat) (d : Nat → Nat)
    (strip : Nat) :
    cacheBytes (setCacheBlock st row d strip) row = blockBytes d strip row := by
  simp [cacheBytes, setCacheBlock, blockBytes]

/-- Blocks not in the processed list emit no display event for their
strip/row and keep their cached bytes. -/
theorem processBlocks_notMem (d : Nat → Nat) (g : Nat → Bool) (b : Nat) :
    ∀ (L : List Nat) (strips : Nat → StripState), b ∉ L →
      ((processBlocks d g L strips).2.countP (isDisplayEventFor (b % 8) (b / 8)) = 0) ∧
      cacheBytes ((processBlocks d g L strips).1 (b % 8)) (b / 8)
        = cacheBytes (strips (b % 8)) (b / 8)
  | [], strips, _ => by simp [processBlocks]
  | blk :: rest, strips, hb => by
    have hne : blk ≠ b := by
      intro he
      exact hb (he ▸ List.mem_cons_self blk rest)
    have hrest : b ∉ rest := fun hr => hb (List.mem_cons_of_mem blk hr)
    by_cases heq : blockBytes d (blk % 8) (blk / 8) = cacheBytes (strips (blk % 8)) (blk / 8)
    · simp only [processBlocks, if_pos heq]
      exact processBlocks_notMem d g b rest strips hrest
    · simp only [processBlocks, if_neg heq]
      have h0 := processBlocks_notMem d g b rest
        (fun j => if j = blk % 8 then setCacheBlock (strips (blk % 8)) (blk / 8) d (blk % 8)
          else strips j) hrest
      have hcache :
          cacheBytes ((fun j =>
              if j = blk % 8 then setCacheBlock (strips (blk % 8)) (blk / 8) d (blk % 8)
              else strips j) (b % 8)) (b / 8)
            = cacheBytes (strips (b % 8)) (b / 8) := by
        dsimp only
        by_cases hm : b % 8 = blk % 8
        · rw [if_pos hm, hm]
          exact cacheBytes_setCacheBlock_ne _ _ _ _ _ (by omega)
        · rw [if_neg hm]
      have hev : isDisplayEventFor (b % 8) (b / 8)
          (Event.stripDisplay (g (blk / 8)) (blk % 8) (blk / 8)) = false := by
        simp only [isDisplayEventFor, Bool.and_eq_false_iff, beq_eq_false_iff_ne, ne_eq]
        omega
      refine ⟨?_, ?_⟩
      · rw [List.countP_cons, h0.1, hev]
        simp
      · rw [h0.2, hcache]

/-- Each block of a duplicate-free processed list emits exactly one display
event when its buffer content differs from its cache (none when equal), and
ends with its cached bytes equal to the buffer content. -/
theorem processBlocks_mem (d : Nat → Nat) (g : Nat → Bool) (b : Nat) :
    ∀ (L : List Nat) (strips : Nat → StripState), L.Nodup → b ∈ L →
      ((processBlocks d g L strips).2.countP (isDisplayEventFor (b % 8) (b / 8)) =
        if blockBytes d (b % 8) (b / 8) = cacheBytes (strips (b % 8)) (b / 8) then 0 else 1) ∧
      cacheBytes ((processBlocks d g L strips).1 (b % 8)) (b / 8)
        = blockBytes d (b % 8) (b / 8)
  | [], _, _, hb => absurd hb (List.not_mem_nil b)
  | blk :: rest, strips, hnd, hb => by
    rw [List.nodup_cons] at hnd
    obtain ⟨hblk, hndr⟩ := hnd
    rcases List.mem_cons.mp hb with hbe | hbr
    · subst hbe
      by_cases heq : blockBytes d (b % 8) (b / 8) = cacheBytes (strips (b % 8)) (b / 8)
      · simp only [processBlocks, if_pos heq]
        have h0 := processBlocks_notMem d g b rest strips hblk
        exact ⟨h0.1, h0.2.trans heq.symm⟩
      · simp only [processBlocks, if_neg heq]
        have h0 := processBlocks_notMem d g b rest
          (fun j => if j = b % 8 then setCacheBlock (strips (b % 8)) (b / 8) d (b % 8)
            else strips j) hblk
        refine ⟨?_, ?_⟩
        · rw [List.countP_cons, h0.1]
          have hev : isDisplayEventFor (b % 8) (b / 8)
              (Event.stripDisplay (g (b / 8)) (b % 8) (b / 8)) = true := by
            simp [isDisplayEventFor]
          rw [hev]
          simp
        · rw [h0.2]
          dsimp only
          rw [if_pos rfl]
          exact cacheBytes_setCacheBlock_same _ _ _ _
    · have hne : b ≠ blk := fun he => hblk (he ▸ hbr)
      by_cases heq : blockBytes d (blk % 8) (blk / 8) = cacheBytes (strips (blk % 8)) (blk / 8)
      · simp only [processBlocks, if_pos heq]
        exact processBlocks_mem d g b rest strips hndr hbr
      · simp only [processBlocks, if_neg heq]
        have hcache :
            cacheBytes ((fun j =>
                if j = blk % 8 then setCacheBlock (strips (blk % 8)) (blk / 8) d (blk % 8)
                else strips j) (b % 8)) (b / 8)
              = cacheBytes (strips (b % 8)) (b / 8) := by
          dsimp only
          by_cases hm : b % 8 = blk % 8
          · rw [if_pos hm, hm]
            exact cacheBytes_setCacheBlock_ne _ _ _ _ _ (by omega)
          · rw [if_neg hm]
        have hrec := processBlocks_mem d g b rest
          (fun j => if j = blk % 8 then setCacheBlock (strips (blk % 8)) (blk / 8) d (blk % 8)
            else strips j) hndr hbr
        have hev : isDisplayEventFor (b % 8) (b / 8)
            (Event.stripDisplay (g (blk / 8)) (blk % 8) (blk / 8)) = false := by
          simp only [isDisplayEventFor, Bool.and_eq_false_iff, beq_eq_false_iff_ne, ne_eq]
          omega
        refine ⟨?_, ?_⟩
        · rw [List.countP_cons, hrec.1, hcache, hev]
          simp
        · rw [hrec.2]

/-- C3: for every well-formed display bulk frame (length at least 8, vendor
prefix 00 00 66, unit id 20 or 21, display type 18, and start-offset plus
text length within the 112-byte buffer), each 7-byte block touched by the
frame's [start, start + length) range either matches that strip/row's
cached 7 bytes - then no display-changed notification for that strip/row is
emitted - or differs - then exactly one such notification is emitted; in
both cases the cache ends up equal to the buffer block. -/
theorem dispatchSystemExclusive_c3 (s : MackieState) (buf : List Nat) (b : Nat)
    (h8 : 8 ≤ buf.length)
    (hv : buf.getD 1 0 = 0 ∧ buf.getD 2 0 = 0 ∧ buf.getD 3 0 = 102)
    (hdev : buf.getD 4 0 = 20 ∨ buf.getD 4 0 = 21)
    (hty : buf.getD 5 0 = 18)
    (hfit : buf.getD 6 0 + (buf.length - 8) ≤ 112)
    (htouch : ∃ i, buf.getD 6 0 ≤ i ∧ i < buf.getD 6 0 + (buf.length - 8) ∧ i / 7 = b) :
    ((dispatchSystemExclusive s buf).2.countP (isDisplayEventFor (b % 8) (b / 8)) =
      if blockBytes (writeBytes s.displayStrip (buf.getD 6 0)
            ((buf.drop 7).take (buf.length - 8))) (b % 8) (b / 8)
          = cacheBytes (s.strips (b % 8)) (b / 8)
        then 0 else 1) ∧
    cacheBytes ((dispatchSystemExclusive s buf).1.strips (b % 8)) (b / 8)
      = blockBytes (writeBytes s.displayStrip (buf.getD 6 0)
          ((buf.drop 7).take (buf.length - 8))) (b % 8) (b / 8) := by
  have hl : sub32 (buf.length - 7) 1 = buf.length - 8 := by
    unfold sub32
    omega
  have hover : ¬(112 < (buf.getD 6 0 + (buf.length - 8)) % 4294967296) := by omega
  simp only [dispatchSystemExclusive]
  rw [if_neg (show ¬buf.length < 8 by omega), if_neg (not_not_intro hv),
    if_neg (not_not_intro hdev), if_pos hty, if_neg (show ¬buf.length < 2 by omega), hl,
    if_neg hover]
  obtain ⟨i, hi1, hi2, hi3⟩ := htouch
  have hnd : ((List.range (1 + ((buf.getD 6 0 + (buf.length - 8)) / 7 - buf.getD 6 0 / 7))).map
      fun i => buf.getD 6 0 / 7 + i).Nodup := by
    exact List.Nodup.map (fun a c hac => Nat.add_left_cancel hac) (List.nodup_range _)
  have hmem : b ∈ (List.range (1 + ((buf.getD 6 0 + (buf.length - 8)) / 7 - buf.getD 6 0 / 7))).map
      fun i => buf.getD 6 0 / 7 + i := by
    have hb1 : buf.getD 6 0 / 7 ≤ b := by
      rw [← hi3]
      exact Nat.div_le_div_right hi1
    have hb2 : b ≤ (buf.getD 6 0 + (buf.length - 8)) / 7 := by
      rw [← hi3]
      exact Nat.div_le_div_right (by omega)
    rw [List.mem_map]
    refine ⟨b - buf.getD 6 0 / 7, ?_, by omega⟩
    rw [List.mem_range]
    omega
  have hres := processBlocks_mem
    (writeBytes s.displayStrip (buf.getD 6 0) ((buf.drop 7).take (buf.length - 8)))
    (globalRow (writeBytes s.displayStrip (buf.getD 6 0) ((buf.drop 7).take (buf.length - 8))))
    b _ s.strips hnd hmem
  exact ⟨hres.1, hres.2⟩

/-- C3 witness: writing "ABCDEFG" at offset 0 against the reset state
touches exactly block 0, whose bytes differ from the cached zero bytes, so
exactly one notification for strip 0 row 0 is emitted and the cache is
updated. -/
theorem dispatchSystemExclusive_c3_witness :
    8 ≤ ([240, 0, 0, 102, 20, 18, 0, 65, 66, 67, 68, 69, 70, 71, 247] : List Nat).length ∧
    (∃ i, ([240, 0, 0, 102, 20, 18, 0, 65, 66, 67, 68, 69, 70, 71, 247] : List Nat).getD 6 0 ≤ i ∧
      i < ([240, 0, 0, 102, 20, 18, 0, 65, 66, 67, 68, 69, 70, 71, 247] : List Nat).getD 6 0 +
        (([240, 0, 0, 102, 20, 18, 0, 65, 66, 67, 68, 69, 70, 71, 247] : List Nat).length - 8) ∧
      i / 7 = 0) ∧
    (((dispatchSystemExclusive resetState
        [240, 0, 0, 102, 20, 18, 0, 65, 66, 67, 68, 69, 70, 71, 247]).2.countP
          (isDisplayEventFor (0 % 8) (0 / 8)) =
      if blockBytes (writeBytes resetState.displayStrip
            (([240, 0, 0, 102, 20, 18, 0, 65, 66, 67, 68, 69, 70, 71, 247] : List Nat).getD 6 0)
            ((([240, 0, 0, 102, 20, 18, 0, 65, 66, 67, 68, 69, 70, 71, 247] : List Nat).drop 7).take
              (([240, 0, 0, 102, 20, 18, 0, 65, 66, 67, 68, 69, 70, 71, 247] : List Nat).length - 8)))
            (0 % 8) (0 / 8)
          = cacheBytes (resetState.strips (0 % 8)) (0 / 8)
        then 0 else 1) ∧
    cacheBytes ((dispatchSystemExclusive resetState
        [240, 0, 0, 102, 20, 18, 0, 65, 66, 67, 68, 69, 70, 71, 247]).1.strips (0 % 8)) (0 / 8)
      = blockBytes (writeBytes resetState.displayStrip
          (([240, 0, 0, 102, 20, 18, 0, 65, 66, 67, 68, 69, 70, 71, 247] : List Nat).getD 6 0)
          ((([240, 0, 0, 102, 20, 18, 0, 65, 66, 67, 68, 69, 70, 71, 247] : List Nat).drop 7).take
            (([240, 0, 0, 102, 20, 18, 0, 65, 66, 67, 68, 69, 70, 71, 247] : List Nat).length - 8)))
          (0 % 8) (0 / 8)) :=
  ⟨by decide, ⟨0, by decide, by decide, by decide⟩,
    dispatchSystemExclusive_c3 resetState
      [240, 0, 0, 102, 20, 18, 0, 65, 66, 67, 68, 69, 70, 71, 247] 0
      (by decide) (by decide) (Or.inl (by decide)) (by decide) (by decide)
      ⟨0, by decide, by decide, by decide⟩⟩

end V2Mackie
